import Mathlib

/-!
Verification development for the EXPA exchange-analytics dashboard
(`streamlit_app.py`).  The file shallowly embeds the reproducible core of
the program — parameter resolution, the fetch/normalize step
(`fetch_exchange_data`), the pivot construction and the funnel/metric
computations — as executable Lean definitions, and proves the specified
properties about them.
-/

namespace Expa

/-- One histogram bucket of the analytics payload:
`{key_as_string: ISO timestamp, doc_count: integer}`. -/
structure Bucket where
  key_as_string : String
  doc_count : Int
deriving Repr, DecidableEq

/-- A stage object of the payload: a JSON object mapping sub-object names
(`"applications"`, `"people"`, …) to objects that may or may not contain a
`"buckets"` array.  `none` in the second component models a sub-object
without a `"buckets"` key. -/
abbrev StageObj := List (String × Option (List Bucket))

/-- The `"analytics"` object: a JSON object mapping protocol stage keys to
stage objects.  Modelled as an association list (Python dicts preserve
insertion order and have unique keys). -/
abbrev Analytics := List (String × StageObj)

instance : DecidableEq Analytics := List.hasDecEq

/-- One flattened funnel row, as appended to `rows` in
`fetch_exchange_data`: the parsed bucket timestamp (kept as its source
string, since `pd.to_datetime` is injective on the payload's uniform ISO
strings), the mapped stage label, and the bucket's document count. -/
structure FunnelRow where
  date : String
  status : String
  count : Int
deriving Repr, DecidableEq

/-- `STATUS_MAP` from the source, in dict insertion order. -/
def STATUS_MAP : List (String × String) :=
  [("total_applications", "Applied"),
   ("total_an_accepted", "Accepted"),
   ("total_approvals", "Approved"),
   ("total_realized", "Realized"),
   ("total_finished", "Finished"),
   ("total_completed", "Completed")]

/-- The `buckets` array reached by one `STATUS_MAP` entry in the loop of
`fetch_exchange_data` (source lines 119–125): skip (yield nothing) if the
key is absent; descend into `"people"` for a key literally equal to
`"total_signup"` and `"applications"` otherwise; skip if that sub-object
is absent or lacks a `"buckets"` array. -/
def bucketsOf (data : Analytics) (key : String) : List Bucket :=
  match data.lookup key with
  | none => []
  | some stageObj =>
    let parent_key := if key = "total_signup" then "people" else "applications"
    match stageObj.lookup parent_key with
    | none => []
    | some none => []
    | some (some buckets) => buckets

/-- The inner `for b in buckets` loop (source lines 126–131): one row per
bucket, in bucket order. -/
def stageRows (data : Analytics) (key label : String) : List FunnelRow :=
  (bucketsOf data key).map (fun b => ⟨b.key_as_string, label, b.doc_count⟩)

/-- The normalization loop of `fetch_exchange_data`: accumulate the rows
of every `STATUS_MAP` entry, in dict iteration order. -/
def normalize (data : Analytics) : List FunnelRow :=
  STATUS_MAP.flatMap (fun kl => stageRows data kl.1 kl.2)

/-- The pivot produced by
`filtered_df.pivot(index="date", columns="status", values="count").fillna(0)`:
a date-indexed, status-columned table whose cells default to 0. -/
structure PivotTable where
  index : List String
  columns : List String
  cells : List FunnelRow
deriving Repr, DecidableEq

/-- Cell lookup in the pivot.  After `.fillna(0)`, a (date, status) pair
with no backing row holds 0. -/
def PivotTable.cell (pt : PivotTable) (d s : String) : Int :=
  ((pt.cells.find? (fun r => r.date == d && r.status == s)).map (fun r => r.count)).getD 0

/-- `pivot_df.get(col, pd.Series([0])).sum()`: sum the column over the date
index when the column exists, else sum the default one-element zero
series. -/
def PivotTable.colSum (pt : PivotTable) (s : String) : Int :=
  if s ∈ pt.columns then (pt.index.map (fun d => pt.cell d s)).sum else 0

/-- `pandas.DataFrame.pivot` raises
`ValueError: Index contains duplicate entries, cannot reshape` whenever two
rows share the same (index, columns) pair; it never aggregates.  On
success the index and columns are the distinct dates and statuses of the
rows. -/
def pivot_df (rows : List FunnelRow) : Except String PivotTable :=
  if (rows.map (fun r => (r.date, r.status))).Nodup then
    .ok ⟨(rows.map (fun r => r.date)).dedup, (rows.map (fun r => r.status)).dedup, rows⟩
  else
    .error "Index contains duplicate entries, cannot reshape"

/-- `funnel_steps` from the source: the fixed ordered stage label set. -/
def funnel_steps : List String :=
  ["Applied", "Accepted", "Approved", "Realized", "Finished", "Completed"]

/-- Position of a status label in `funnel_steps`. -/
def stageIdx (s : String) : Nat := funnel_steps.indexOf s

/-- One entry of `funnel_data`: an adjacent stage pair with its sums and
conversion rate (Python float division modelled exactly over ℚ). -/
structure FunnelStep where
  step_from : String
  step_to : String
  from_count : Int
  to_count : Int
  rate : ℚ
deriving Repr, DecidableEq

/-- The `funnel_data` loop: for each of the five adjacent pairs of
`funnel_steps`, column sums and `to_sum / from_sum if from_sum > 0 else 0`. -/
def funnel_data (pt : PivotTable) : List FunnelStep :=
  (List.range (funnel_steps.length - 1)).map (fun i =>
    let step_from := funnel_steps.getD i ""
    let step_to := funnel_steps.getD (i + 1) ""
    let from_sum := pt.colSum step_from
    let to_sum := pt.colSum step_to
    let rate : ℚ := if from_sum > 0 then (to_sum : ℚ) / (from_sum : ℚ) else 0
    ⟨step_from, step_to, from_sum, to_sum, rate⟩)

/-- The four "Key Metrics" scalars. -/
structure Metrics where
  total_applied : Int
  total_approved : Int
  total_realized : Int
  realization_rate : ℚ
deriving Repr, DecidableEq

/-- The "Key Metrics" computation: three column sums and
`total_realized / total_applied if total_applied > 0 else 0`. -/
def metrics (pt : PivotTable) : Metrics :=
  let total_applied := pt.colSum "Applied"
  let total_realized := pt.colSum "Realized"
  ⟨total_applied, pt.colSum "Approved", total_realized,
   if total_applied > 0 then (total_realized : ℚ) / (total_applied : ℚ) else 0⟩

/-- A decoded JSON response body: its optional top-level `"analytics"`
object, plus the remainder of the body kept opaque.  Error paths surface
the whole `Body` value verbatim (`st.json(response.json())`). -/
structure Body where
  analytics : Option Analytics
  rest : String
deriving Repr, DecidableEq

/-- An HTTP response as seen by `fetch_exchange_data`. -/
structure Response where
  status_code : Nat
  body : Body
deriving Repr, DecidableEq

/-- The fatal outcomes of `fetch_exchange_data`: a non-200 status, or a
200 body without an `"analytics"` key.  Both carry the response body that
the source displays with `st.json` before `st.stop()`. -/
inductive FetchError where
  | transport (status_code : Nat) (body : Body)
  | schema (body : Body)
deriving Repr, DecidableEq

/-- `fetch_exchange_data` after the request returned: stop on
`status_code != 200` surfacing the body, stop on a missing `"analytics"`
key surfacing the body, otherwise normalize into the row table. -/
def fetch_exchange_data (resp : Response) : Except FetchError (List FunnelRow) :=
  if resp.status_code ≠ 200 then
    .error (.transport resp.status_code resp.body)
  else
    match resp.body.analytics with
    | none => .error (.schema resp.body)
    | some data => .ok (normalize data)

/-- ASCII whitespace stripped by Python `int()` before parsing. -/
def isPySpace (c : Char) : Bool :=
  c = ' ' || c = '\t' || c = '\n' || c = '\r' || c = '\x0b' || c = '\x0c'

/-- Digit run of Python `int()`: after a first digit, digits may be
separated by single underscores.  `acc` is the value read so far. -/
def pyDigitsAux (acc : Nat) : List Char → Option Nat
  | [] => some acc
  | '_' :: c :: cs =>
    if c.isDigit then pyDigitsAux (10 * acc + (c.toNat - 48)) cs else none
  | c :: cs =>
    if c.isDigit then pyDigitsAux (10 * acc + (c.toNat - 48)) cs else none

/-- A nonempty digit run (the part after an optional sign). -/
def pyNat? : List Char → Option Nat
  | [] => none
  | c :: cs => if c.isDigit then pyDigitsAux (c.toNat - 48) cs else none

/-- Python's `int(str)` builtin, as called on the entity-id text input:
strip surrounding whitespace, allow one optional sign, then a nonempty
digit run (underscores permitted between digits); anything else raises
`ValueError`, modelled as `none`.  In particular `""` and `"abc"` are
`none`. -/
def pythonInt? (s : String) : Option Int :=
  let cs := ((s.data.dropWhile isPySpace).reverse.dropWhile isPySpace).reverse
  match cs with
  | '+' :: rest => (pyNat? rest).map (fun n => (n : Int))
  | '-' :: rest => (pyNat? rest).map (fun n => -(n : Int))
  | rest => (pyNat? rest).map (fun n => (n : Int))

/-- The terminal state of one render cycle. -/
inductive RenderResult where
  | inputError
  | transportError (status_code : Nat) (body : Body)
  | schemaError (body : Body)
  | noData
  | pivotError (msg : String)
  | success (funnel : List FunnelStep) (m : Metrics)
deriving Repr, DecidableEq

/-- One render of the script, from the entity-id text input to the funnel
table and metrics.  `pythonInt?` models the `int()` call on the entity-id
input (`try: office_id = int(entity_id_input) except: st.stop()`).  The
returned `Bool` is
`true` exactly when `fetch_exchange_data` (the Remote Fetcher) was
invoked.  The empty check on `exchange_df` precedes the status
multiselect filter and the `"Sign Up"` filter, as in the source. -/
def runRender (entity_id_input : String) (resp : Response)
    (selected_statuses : List String) : RenderResult × Bool :=
  match pythonInt? entity_id_input with
  | none => (.inputError, false)
  | some _office_id =>
    match fetch_exchange_data resp with
    | .error (.transport s b) => (.transportError s b, true)
    | .error (.schema b) => (.schemaError b, true)
    | .ok exchange_df =>
      if exchange_df.isEmpty then (.noData, true)
      else
        let filtered_df :=
          ((exchange_df.filter (fun r => selected_statuses.contains r.status)).filter
            (fun r => r.status != "Sign Up"))
        match pivot_df filtered_df with
        | .error m => (.pivotError m, true)
        | .ok pt => (.success (funnel_data pt) (metrics pt), true)

/-- `exchange_type_map` from the source. -/
def exchange_type_map : List (String × String) :=
  [("Outgoing", "person"), ("Incoming", "opportunity")]

/-- `programme_map` from the source. -/
def programme_map : List (String × Int) :=
  [("Global Volunteer", 6), ("Global Talent", 7), ("Global Teacher", 8)]

/-- `programme_map[prog]`.  The multiselect restricts `prog` to the three
dict keys, so the lookup always succeeds along reachable paths; the
default 0 stands for the `KeyError` the source would raise on any other
string and is never exercised under the theorems' membership
hypotheses. -/
def programmeVal (prog : String) : Int := (programme_map.lookup prog).getD 0

/-- The resolved query parameter map, one field per `params` entry of the
source.  `programmes` is `none` when the `"programmes[]"` key was never
created by `setdefault`. -/
structure Params where
  start_date : String
  end_date : String
  histogram_type : String
  histogram_interval : String
  exchange_type : String
  histogram_office_id : Int
  access_token : String
  programmes : Option (List Int)
deriving Repr, DecidableEq

/-- One iteration of
`params.setdefault("programmes[]", []).append(programme_map[prog])`:
create the field as an empty array if absent, then append the mapped
integer. -/
def addProgramme (acc : Option (List Int)) (prog : String) : Option (List Int) :=
  some ((acc.getD []) ++ [programmeVal prog])

/-- The `params` dict built in `fetch_exchange_data` before the GET. -/
def buildParams (token : String) (exchange_type : String) (programmes : List String)
    (start_date end_date : String) (interval : String) (office_id : Int) : Params :=
  { start_date := start_date
    end_date := end_date
    histogram_type := (exchange_type_map.lookup exchange_type).getD ""
    histogram_interval := interval
    exchange_type := (exchange_type_map.lookup exchange_type).getD ""
    histogram_office_id := office_id
    access_token := token
    programmes := programmes.foldl addProgramme none }

/-- The cache key of `@st.cache_data`: the full argument tuple of
`fetch_exchange_data`. -/
structure CacheKey where
  token : String
  exchange_type : String
  programmes : List String
  start_date : String
  end_date : String
  interval : String
  office_id : Int
deriving Repr, DecidableEq

/-- The cache state: stored entries with the time (in seconds) at which
each was stored. -/
structure CacheState where
  entries : List (CacheKey × Nat × Body)
deriving DecidableEq

/-- Modelled from the spec: the lookup half of the `st.cache_data(ttl=3600)`
wrapper (the cache implementation lives in the streamlit library, not in
this repository).  An entry is valid while less than 3600 seconds old. -/
def cacheLookup (st : CacheState) (now : Nat) (k : CacheKey) : Option Body :=
  (st.entries.find? (fun e => decide (e.1 = k ∧ now < e.2.1 + 3600))).map (fun e => e.2.2)

/-- Modelled from the spec: one call of the cached `fetch_exchange_data`.
`net` is the network as a function from parameters to response body.  A
valid cached entry is returned without touching the network; otherwise the
network result is stored.  The `Bool` is `true` exactly when the network
was called. -/
def cachedFetch (net : CacheKey → Body) (st : CacheState) (now : Nat) (k : CacheKey) :
    Body × CacheState × Bool :=
  match cacheLookup st now k with
  | some v => (v, st, false)
  | none => (net k, ⟨(k, now, net k) :: st.entries⟩, true)

/-- A one-stage sample payload used to instantiate the theorems:
`total_applications.applications.buckets = [{key_as_string:
"2024-01-01T00:00:00Z", doc_count: 10}]`, all other stage keys absent. -/
def sampleAnalytics : Analytics :=
  [("total_applications", [("applications", some [⟨"2024-01-01T00:00:00Z", 10⟩])])]

/-! ### Helper lemmas -/

theorem stageRows_status (data : Analytics) (key label : String) :
    ∀ r ∈ stageRows data key label, r.status = label := by
  intro r hr
  simp only [stageRows, List.mem_map] at hr
  obtain ⟨b, _, rfl⟩ := hr
  rfl

theorem filter_status_self (data : Analytics) (key label : String) :
    (stageRows data key label).filter (fun r => r.status == label) =
      stageRows data key label := by
  apply List.filter_eq_self.mpr
  intro r hr
  simp [stageRows_status data key label r hr]

theorem filter_status_ne (data : Analytics) (key label other : String)
    (h : ¬ label = other) :
    (stageRows data key label).filter (fun r => r.status == other) = [] := by
  apply List.filter_eq_nil_iff.mpr
  intro r hr
  simp [stageRows_status data key label r hr, h]

theorem normalize_expand (data : Analytics) :
    normalize data =
      stageRows data "total_applications" "Applied" ++
      (stageRows data "total_an_accepted" "Accepted" ++
      (stageRows data "total_approvals" "Approved" ++
      (stageRows data "total_realized" "Realized" ++
      (stageRows data "total_finished" "Finished" ++
      (stageRows data "total_completed" "Completed" ++ []))))) := rfl

theorem filter_label_eq_stageRows (data : Analytics) (key label : String)
    (hmem : (key, label) ∈ STATUS_MAP) :
    (normalize data).filter (fun r => r.status == label) = stageRows data key label := by
  simp only [STATUS_MAP, List.mem_cons, List.not_mem_nil, or_false] at hmem
  rcases hmem with h | h | h | h | h | h <;>
    (injection h with h1 h2; subst h1; subst h2) <;>
    simp [normalize_expand, List.filter_append, filter_status_self, filter_status_ne]

theorem pairwise_flatMap_stageIdx (data : Analytics) (kls : List (String × String))
    (hmono : kls.Pairwise (fun p q => stageIdx p.2 ≤ stageIdx q.2)) :
    (kls.flatMap (fun kl => stageRows data kl.1 kl.2)).Pairwise
      (fun r r2 => stageIdx r.status ≤ stageIdx r2.status) := by
  induction kls with
  | nil => simp
  | cons hd tl ih =>
    rw [List.flatMap_cons, List.pairwise_append]
    rw [List.pairwise_cons] at hmono
    refine ⟨?_, ih hmono.2, ?_⟩
    · apply List.pairwise_of_forall_mem_list
      intro a ha b hb
      rw [stageRows_status data hd.1 hd.2 a ha, stageRows_status data hd.1 hd.2 b hb]
    · intro a ha b hb
      obtain ⟨q, hq, hbq⟩ := List.mem_flatMap.mp hb
      rw [stageRows_status data hd.1 hd.2 a ha, stageRows_status data q.1 q.2 b hbq]
      exact hmono.1 q hq

/-! ### Claim theorems -/

/-- C4: for every PivotTable, a zero denominator yields a zero rate and
never a division error: every adjacent-pair step of `funnel_data` with
`from_count = 0` has `rate = 0`, and `metrics` with `total_applied = 0`
has `realization_rate = 0`. -/
theorem rates_guarded_on_zero_denominator (pt : PivotTable) :
    (∀ step ∈ funnel_data pt, step.from_count = 0 → step.rate = 0) ∧
    ((metrics pt).total_applied = 0 → (metrics pt).realization_rate = 0) := by
  constructor
  · intro step hstep h0
    simp only [funnel_data, List.mem_map, List.mem_range] at hstep
    obtain ⟨i, _, rfl⟩ := hstep
    simp only at h0 ⊢
    rw [h0]
    norm_num
  · intro h0
    simp only [metrics] at h0 ⊢
    rw [h0]
    norm_num

/-- Witness for C4 at the empty pivot: the "Applied → Accepted" step has
`from_count = 0` and its rate is 0, and the empty metrics'
`realization_rate` is 0. -/
theorem rates_guarded_on_zero_denominator_witness :
    ((⟨"Applied", "Accepted", 0, 0, 0⟩ : FunnelStep) ∈ funnel_data ⟨[], [], []⟩ ∧
      (⟨"Applied", "Accepted", 0, 0, 0⟩ : FunnelStep).rate = 0) ∧
    (metrics ⟨[], [], []⟩).realization_rate = 0 :=
  ⟨⟨by decide,
    (rates_guarded_on_zero_denominator ⟨[], [], []⟩).1 _ (by decide) (by decide)⟩,
   (rates_guarded_on_zero_denominator ⟨[], [], []⟩).2 (by decide)⟩

/-- C6: an entity-id input that does not parse as an integer halts the
render with the input-validation outcome, and the Remote Fetcher is never
invoked: the result is `inputError` with fetch flag `false`, for every
response and status selection (so nothing about the network can influence
it). -/
theorem unparseable_entity_id_halts (entity_id_input : String)
    (h : pythonInt? entity_id_input = none) (resp : Response) (sel : List String) :
    runRender entity_id_input resp sel = (RenderResult.inputError, false) := by
  simp [runRender, h]

/-- Witness for C6 at the inputs `""` and `"abc"` from the spec. -/
theorem unparseable_entity_id_halts_witness :
    pythonInt? "" = none ∧ pythonInt? "abc" = none ∧
    runRender "" ⟨200, ⟨some sampleAnalytics, ""⟩⟩ ["Applied"] =
      (RenderResult.inputError, false) ∧
    runRender "abc" ⟨200, ⟨some sampleAnalytics, ""⟩⟩ ["Applied"] =
      (RenderResult.inputError, false) :=
  ⟨by decide, by decide,
   unparseable_entity_id_halts "" (by decide) _ _,
   unparseable_entity_id_halts "abc" (by decide) _ _⟩

/-- C7: a fetch that returns a non-2xx HTTP status aborts the render:
the result is the transport-error outcome carrying the response body
verbatim (so no pivot, funnel steps or metrics are produced). -/
theorem non2xx_aborts_with_body (entity_id_input : String) (n : Int)
    (hp : pythonInt? entity_id_input = some n) (resp : Response) (sel : List String)
    (h : ¬ (200 ≤ resp.status_code ∧ resp.status_code ≤ 299)) :
    runRender entity_id_input resp sel =
      (RenderResult.transportError resp.status_code resp.body, true) := by
  have hne : resp.status_code ≠ 200 := by
    intro e
    exact h (by omega)
  simp [runRender, hp, fetch_exchange_data, hne]

/-- Witness for C7 at a concrete 500 response. -/
theorem non2xx_aborts_with_body_witness :
    pythonInt? "7" = some 7 ∧ ¬ ((200:Nat) ≤ 500 ∧ (500:Nat) ≤ 299) ∧
    runRender "7" ⟨500, ⟨none, "backend exploded"⟩⟩ ["Applied"] =
      (RenderResult.transportError 500 ⟨none, "backend exploded"⟩, true) :=
  ⟨by decide, by decide,
   non2xx_aborts_with_body "7" 7 (by decide) ⟨500, ⟨none, "backend exploded"⟩⟩
     ["Applied"] (by decide)⟩

/-- Counterexample to C1: on a FunnelTable with two rows for the same
(date, stage) pair, `DataFrame.pivot` raises
`ValueError: Index contains duplicate entries, cannot reshape` — the pivot
is never built, so no cell holds the sum 1 + 2 = 3. -/
theorem duplicate_cells_pivot_raises_cex :
    pivot_df [⟨"2024-01-01T00:00:00Z", "Applied", 1⟩,
              ⟨"2024-01-01T00:00:00Z", "Applied", 2⟩] =
      Except.error "Index contains duplicate entries, cannot reshape" := by
  rfl

/-- C1 (amended): for every FunnelTable containing two (or more) rows with
the same (date, stage) pair, building the pivot fails with pandas'
duplicate-index `ValueError` instead of merging the duplicates. -/
theorem duplicate_cells_pivot_raises (rows : List FunnelRow)
    (h : ¬ (rows.map (fun r => (r.date, r.status))).Nodup) :
    pivot_df rows =
      Except.error "Index contains duplicate entries, cannot reshape" := by
  simp [pivot_df, h]

/-- Witness for the amended C1 at a concrete duplicated table. -/
theorem duplicate_cells_pivot_raises_witness :
    ¬ (([⟨"2024-02-01T00:00:00Z", "Realized", 3⟩,
         ⟨"2024-02-01T00:00:00Z", "Realized", 4⟩] : List FunnelRow).map
        (fun r => (r.date, r.status))).Nodup ∧
    pivot_df [⟨"2024-02-01T00:00:00Z", "Realized", 3⟩,
              ⟨"2024-02-01T00:00:00Z", "Realized", 4⟩] =
      Except.error "Index contains duplicate entries, cannot reshape" :=
  ⟨by decide, duplicate_cells_pivot_raises _ (by decide)⟩

/-- Counterexample to C2: with a nonempty FunnelTable but an empty status
selection, the table is empty after the stage-selection filter and the
"Sign Up" filter, yet the render does not stop in the "no data" state —
it proceeds to a degenerate all-zero funnel. -/
theorem empty_after_filter_no_stop_cex :
    (((normalize sampleAnalytics).filter
        (fun r => ([] : List String).contains r.status)).filter
      (fun r => r.status != "Sign Up")) = [] ∧
    (runRender "1" ⟨200, ⟨some sampleAnalytics, ""⟩⟩ []).1 ≠ RenderResult.noData := by
  decide

/-- C2 (amended): the "no data" stop happens when the FunnelTable is empty
as returned by the normalizer, before the stage-selection filter and the
"Sign Up" filter are applied; that state is distinct from a transport or
schema error.  (A table emptied only by the filters does not stop the
pipeline.) -/
theorem empty_table_stops_noData (entity_id_input : String) (n : Int)
    (hp : pythonInt? entity_id_input = some n) (resp : Response)
    (data : Analytics) (hs : resp.status_code = 200)
    (hb : resp.body.analytics = some data) (hempty : normalize data = [])
    (sel : List String) :
    (runRender entity_id_input resp sel).1 = RenderResult.noData ∧
    (∀ s b, RenderResult.noData ≠ RenderResult.transportError s b) ∧
    (∀ b, RenderResult.noData ≠ RenderResult.schemaError b) := by
  refine ⟨?_, fun s b h => RenderResult.noConfusion h,
    fun b h => RenderResult.noConfusion h⟩
  simp [runRender, hp, fetch_exchange_data, hs, hb, hempty]

/-- Witness for the amended C2 at an empty analytics object. -/
theorem empty_table_stops_noData_witness :
    pythonInt? "1" = some 1 ∧ normalize [] = [] ∧
    (runRender "1" ⟨200, ⟨some [], ""⟩⟩ ["Applied"]).1 = RenderResult.noData :=
  ⟨by decide, by decide,
   (empty_table_stops_noData "1" 1 (by decide) ⟨200, ⟨some [], ""⟩⟩ [] rfl rfl
     (by decide) ["Applied"]).1⟩

/-- C3: on the spec's synthetic payload — a single `total_applications`
bucket `{key_as_string: "2024-01-01T00:00:00Z", doc_count: 10}`, every
other stage key absent — `normalize` yields exactly the one row
(2024-01-01T00:00:00Z, "Applied", 10); and in general every bucket of a
present key (with its sub-object and `"buckets"` array present) yields
exactly one row with the bucket timestamp, the mapped label and the
bucket's `doc_count`, in bucket order. -/
theorem normalize_single_bucket_row :
    normalize sampleAnalytics = [⟨"2024-01-01T00:00:00Z", "Applied", 10⟩] ∧
    ∀ (data : Analytics) (key label : String) (stageObj : StageObj)
      (buckets : List Bucket),
      data.lookup key = some stageObj →
      stageObj.lookup (if key = "total_signup" then "people" else "applications") =
        some (some buckets) →
      stageRows data key label =
        buckets.map (fun b => ⟨b.key_as_string, label, b.doc_count⟩) := by
  constructor
  · decide
  · intro data key label stageObj buckets h1 h2
    simp [stageRows, bucketsOf, h1, h2]

/-- Witness for C3 instantiating the general bucket-to-row part on the
sample payload. -/
theorem normalize_single_bucket_row_witness :
    sampleAnalytics.lookup "total_applications" =
      some [("applications", some [⟨"2024-01-01T00:00:00Z", 10⟩])] ∧
    stageRows sampleAnalytics "total_applications" "Applied" =
      [⟨"2024-01-01T00:00:00Z", "Applied", 10⟩] :=
  ⟨by decide, by
    rw [normalize_single_bucket_row.2 sampleAnalytics "total_applications" "Applied"
      [("applications", some [⟨"2024-01-01T00:00:00Z", 10⟩])]
      [⟨"2024-01-01T00:00:00Z", 10⟩] (by decide) (by decide)]
    rfl⟩

/-- C5: a stage whose key is absent from the payload, or whose chosen
sub-object (`"people"` only for a key literally `"total_signup"`, else
`"applications"`) is absent, or whose sub-object lacks a `"buckets"` array,
is skipped: it contributes zero rows to the FunnelTable (all embedded
functions are total, so nothing is raised — missing data only yields fewer
rows). -/
theorem missing_stage_yields_no_rows (data : Analytics) (key label : String)
    (hmem : (key, label) ∈ STATUS_MAP)
    (h : data.lookup key = none ∨
      ∃ stageObj, data.lookup key = some stageObj ∧
        (stageObj.lookup (if key = "total_signup" then "people" else "applications") =
          none ∨
         stageObj.lookup (if key = "total_signup" then "people" else "applications") =
          some none)) :
    stageRows data key label = [] ∧
    (normalize data).filter (fun r => r.status == label) = [] := by
  have hsr : stageRows data key label = [] := by
    rcases h with h | ⟨stageObj, h1, h2 | h2⟩
    · simp [stageRows, bucketsOf, h]
    · simp [stageRows, bucketsOf, h1, h2]
    · simp [stageRows, bucketsOf, h1, h2]
  exact ⟨hsr, by rw [filter_label_eq_stageRows data key label hmem, hsr]⟩

/-- Witness for C5: the empty payload has no `total_applications` key, so
the Applied stage contributes no rows. -/
theorem missing_stage_yields_no_rows_witness :
    ("total_applications", "Applied") ∈ STATUS_MAP ∧
    stageRows ([] : Analytics) "total_applications" "Applied" = [] ∧
    (normalize ([] : Analytics)).filter (fun r => r.status == "Applied") = [] :=
  ⟨by decide,
   (missing_stage_yields_no_rows [] "total_applications" "Applied" (by decide)
     (Or.inl rfl)).1,
   (missing_stage_yields_no_rows [] "total_applications" "Applied" (by decide)
     (Or.inl rfl)).2⟩

/-- C9: the FunnelTable is grouped by stage in the fixed six-key iteration
order — along the output, the position of the row's stage in the label
sequence never decreases — and within each stage the rows are exactly that
key's buckets mapped to rows, in the payload's bucket order. -/
theorem normalize_output_ordering (data : Analytics) :
    (normalize data).Pairwise (fun r r2 => stageIdx r.status ≤ stageIdx r2.status) ∧
    ∀ key label, (key, label) ∈ STATUS_MAP →
      (normalize data).filter (fun r => r.status == label) =
        (bucketsOf data key).map (fun b => ⟨b.key_as_string, label, b.doc_count⟩) := by
  constructor
  · exact pairwise_flatMap_stageIdx data STATUS_MAP (by decide)
  · intro key label hmem
    rw [filter_label_eq_stageRows data key label hmem]
    rfl

/-- Witness for C9 on the sample payload. -/
theorem normalize_output_ordering_witness :
    ("total_applications", "Applied") ∈ STATUS_MAP ∧
    (normalize sampleAnalytics).filter (fun r => r.status == "Applied") =
      [⟨"2024-01-01T00:00:00Z", "Applied", 10⟩] :=
  ⟨by decide, by
    rw [(normalize_output_ordering sampleAnalytics).2 "total_applications" "Applied"
      (by decide)]
    rfl⟩

theorem foldl_addProgramme (ps : List String) (l : List Int) :
    ps.foldl addProgramme (some l) = some (l ++ ps.map programmeVal) := by
  induction ps generalizing l with
  | nil => simp
  | cons p ps ih =>
    rw [List.foldl_cons,
      show addProgramme (some l) p = some (l ++ [programmeVal p]) from rfl, ih]
    simp

theorem programmeVal_mem (p : String) (hp : (programme_map.lookup p).isSome) :
    programmeVal p = 6 ∨ programmeVal p = 7 ∨ programmeVal p = 8 := by
  by_cases h1 : p = "Global Volunteer"
  · subst h1; left; rfl
  by_cases h2 : p = "Global Talent"
  · subst h2; right; left; rfl
  by_cases h3 : p = "Global Teacher"
  · subst h3; right; right; rfl
  exfalso
  simp only [programme_map, List.lookup] at hp
  rw [show (p == "Global Volunteer") = false by simp [h1],
      show (p == "Global Talent") = false by simp [h2],
      show (p == "Global Teacher") = false by simp [h3]] at hp
  simp at hp

/-- C10: with an empty programme selection the parameter map carries no
`programmes[]` field at all (the `setdefault` is never reached); with a
nonempty selection of valid programme names the field is present and holds
exactly one mapped integer per selected programme, each of 6, 7 or 8. -/
theorem programmes_field_resolution (token exchange_type : String)
    (programmes : List String) (start_date end_date interval : String)
    (office_id : Int)
    (hvalid : ∀ p ∈ programmes, (programme_map.lookup p).isSome) :
    (programmes = [] →
      (buildParams token exchange_type programmes start_date end_date interval
        office_id).programmes = none) ∧
    (programmes ≠ [] →
      (buildParams token exchange_type programmes start_date end_date interval
        office_id).programmes = some (programmes.map programmeVal) ∧
      (programmes.map programmeVal).length = programmes.length ∧
      ∀ v ∈ programmes.map programmeVal, v = 6 ∨ v = 7 ∨ v = 8) := by
  constructor
  · intro h
    subst h
    rfl
  · intro hne
    obtain ⟨p, ps, rfl⟩ := List.exists_cons_of_ne_nil hne
    refine ⟨?_, by simp, ?_⟩
    · simp only [buildParams]
      rw [List.foldl_cons,
        show addProgramme none p = some [programmeVal p] from rfl,
        foldl_addProgramme]
      simp
    · intro v hv
      simp only [List.mem_map] at hv
      obtain ⟨q, hq, rfl⟩ := hv
      exact programmeVal_mem q (hvalid q hq)

/-- Witness for C10 with two selected programmes. -/
theorem programmes_field_resolution_witness :
    (buildParams "tok" "Outgoing" ["Global Volunteer", "Global Talent"]
      "2024-01-01" "2024-12-31" "month" 7).programmes = some [6, 7] := by
  rw [((programmes_field_resolution "tok" "Outgoing"
    ["Global Volunteer", "Global Talent"] "2024-01-01" "2024-12-31" "month" 7
    (by decide)).2 (by decide)).1]
  rfl

/-- C8: two consecutive cached fetches with the same full parameter tuple
inside the 1-hour window: the first (a miss on `st0`) calls the network
and stores the body; the second returns exactly that stored body, leaves
the cache unchanged, and does not call the network. -/
theorem cache_window_hit (net : CacheKey → Body) (st0 : CacheState) (t1 t2 : Nat)
    (k : CacheKey) (hmiss : cacheLookup st0 t1 k = none) (h12 : t1 ≤ t2)
    (hwin : t2 < t1 + 3600) :
    cachedFetch net st0 t1 k = (net k, ⟨(k, t1, net k) :: st0.entries⟩, true) ∧
    cachedFetch net ⟨(k, t1, net k) :: st0.entries⟩ t2 k =
      (net k, ⟨(k, t1, net k) :: st0.entries⟩, false) := by
  constructor
  · simp [cachedFetch, hmiss]
  · have hl : cacheLookup ⟨(k, t1, net k) :: st0.entries⟩ t2 k = some (net k) := by
      unfold cacheLookup
      rw [List.find?_cons_of_pos _ (by simp [hwin])]
      rfl
    simp [cachedFetch, hl]

/-- Witness for C8 at a concrete key, 1800 s after the first fetch. -/
theorem cache_window_hit_witness :
    cachedFetch (fun _ => (⟨none, "cached-body"⟩ : Body))
        ⟨[(⟨"tok", "Outgoing", ["Global Volunteer"], "2024-01-01", "2024-12-31",
            "month", 7⟩, 0, ⟨none, "cached-body"⟩)]⟩ 1800
        ⟨"tok", "Outgoing", ["Global Volunteer"], "2024-01-01", "2024-12-31",
          "month", 7⟩ =
      (⟨none, "cached-body"⟩,
       ⟨[(⟨"tok", "Outgoing", ["Global Volunteer"], "2024-01-01", "2024-12-31",
           "month", 7⟩, 0, ⟨none, "cached-body"⟩)]⟩, false) :=
  (cache_window_hit (fun _ => (⟨none, "cached-body"⟩ : Body)) ⟨[]⟩ 0 1800
    ⟨"tok", "Outgoing", ["Global Volunteer"], "2024-01-01", "2024-12-31",
      "month", 7⟩ rfl (by decide) (by decide)).2

end Expa
